import Mathlib

/-!
Verification of the valuation and health-scoring engine of the
restaurant-valuation-calculator repository (`src/lib/calculations.ts`)
against its natural-language specification.

The engine is pure closed-form arithmetic over JavaScript numbers; it is
embedded here over `ℚ`.  Decimal literals of the source (`0.772727`,
`28.5`, …) are read as the exact decimal rationals they denote.
`Math.round x` is `⌊x + 1/2⌋` (round half toward +∞), which is exactly
Mathlib's `round`.  JavaScript comparisons `a >= b` / `a > b` are written
`b ≤ a` / `b < a`.  The single place where IEEE-754 non-finite values can
arise (the unguarded cash-flow-margin division in `calculateHealthScore`)
is written out by cases on `annualSales = 0`; see `cashFlowScore`.
-/

/-- Input record of the engine (`CalculationInputs`, src/types). -/
structure CalculationInputs where
  annualSales : ℚ
  foodCostPercent : ℚ
  laborCostPercent : ℚ
  occupancyCostPercent : ℚ
  otherExpensesPercent : ℚ
  ownerCompensation : ℚ
  desiredROI : ℚ
  deriving DecidableEq

/-- Expense breakdown returned alongside the results (`CalculationBreakdown`). -/
structure CalculationBreakdown where
  foodCost : ℚ
  laborCost : ℚ
  occupancyCost : ℚ
  otherExpenses : ℚ
  totalOperatingExpenses : ℚ
  deriving DecidableEq

/-- The four categorical health ratings. -/
inductive HealthStatus where
  | Excellent
  | Good
  | Fair
  | Poor
  deriving DecidableEq

/-- Result record of the engine (`CalculationResults & \x7bbreakdown\x7d`). -/
structure CalculationResults where
  grossProfit : ℚ
  operatingProfit : ℚ
  cashFlow : ℚ
  estimatedValue : ℚ
  desiredROIValue : ℚ
  healthStatus : HealthStatus
  profitMargin : ℚ
  breakdown : CalculationBreakdown
  deriving DecidableEq

/-- `OPERATING_EXPENSE_ADJUSTMENT` (src/lib/calculations.ts:26). -/
def OPERATING_EXPENSE_ADJUSTMENT : ℚ := 772727 / 1000000

/-- `Math.round` on rationals: round half toward positive infinity. -/
def jsRound (x : ℚ) : ℤ := round x

/-- `Math.round (x * 10) / 10`, the final rounding step of
`calculateHealthScore` (src/lib/calculations.ts:159). -/
def roundTo1dp (x : ℚ) : ℚ := (jsRound (x * 10) : ℚ) / 10

/-- Factor 1, profit-margin score (src/lib/calculations.ts:58-71). -/
def profitScore (profitMargin : ℚ) : ℚ :=
  if 15 ≤ profitMargin then 20
  else if 12 ≤ profitMargin then 17 + ((profitMargin - 12) / 3) * 3
  else if 10 ≤ profitMargin then 15 + ((profitMargin - 10) / 2) * 2
  else if 7 ≤ profitMargin then 11 + ((profitMargin - 7) / 3) * 4
  else if 5 ≤ profitMargin then 8 + ((profitMargin - 5) / 2) * 3
  else if 0 ≤ profitMargin then (profitMargin / 5) * 8
  else 0

/-- Factor 2, food-cost score (src/lib/calculations.ts:76-89).
`Math.min (Math.abs (foodCost - 30)) 5` is `min |foodCost - 30| 5`. -/
def foodScore (foodCost : ℚ) : ℚ :=
  if 28 ≤ foodCost ∧ foodCost ≤ 32 then 15
  else if 25 ≤ foodCost ∧ foodCost ≤ 35 then 15 - (min |foodCost - 30| 5 / 5) * 3
  else if 20 ≤ foodCost ∧ foodCost ≤ 40 then 12 - ((min |foodCost - 30| 10 - 5) / 5) * 4
  else if 15 ≤ foodCost ∧ foodCost ≤ 45 then 4
  else 0

/-- Factor 3, labor-cost score (src/lib/calculations.ts:93-106). -/
def laborScore (laborCost : ℚ) : ℚ :=
  if 25 ≤ laborCost ∧ laborCost ≤ 32 then 15
  else if 22 ≤ laborCost ∧ laborCost ≤ 35 then 15 - (min |laborCost - 28.5| 6.5 / 6.5) * 3
  else if 20 ≤ laborCost ∧ laborCost ≤ 40 then 12 - ((min |laborCost - 28.5| 11.5 - 6.5) / 5) * 4
  else if 15 ≤ laborCost ∧ laborCost ≤ 45 then 4
  else 0

/-- Factor 4, occupancy-cost score (src/lib/calculations.ts:110-123). -/
def occupancyScore (occupancyCost : ℚ) : ℚ :=
  if 6 ≤ occupancyCost ∧ occupancyCost ≤ 10 then 10
  else if 5 ≤ occupancyCost ∧ occupancyCost ≤ 12 then 10 - (min |occupancyCost - 8| 4 / 4) * 2
  else if 3 ≤ occupancyCost ∧ occupancyCost ≤ 15 then 8 - ((min |occupancyCost - 8| 7 - 4) / 3) * 3
  else if 3 ≤ occupancyCost ∧ occupancyCost ≤ 20 then 3
  else 0

/-- Factor 5, the tiering applied to the cash-flow margin
(src/lib/calculations.ts:131-155). -/
def cashFlowTier (cashFlowMargin : ℚ) : ℚ :=
  if 50 ≤ cashFlowMargin then 60
  else if 40 ≤ cashFlowMargin then 55 + ((cashFlowMargin - 40) / 10) * 5
  else if 30 ≤ cashFlowMargin then 45 + ((cashFlowMargin - 30) / 10) * 10
  else if 20 ≤ cashFlowMargin then 35 + ((cashFlowMargin - 20) / 10) * 10
  else if 15 ≤ cashFlowMargin then 27 + ((cashFlowMargin - 15) / 5) * 8
  else if 10 ≤ cashFlowMargin then 18 + ((cashFlowMargin - 10) / 5) * 9
  else if 5 ≤ cashFlowMargin then 8 + ((cashFlowMargin - 5) / 5) * 10
  else if 0 ≤ cashFlowMargin then (cashFlowMargin / 5) * 8
  else 0

/-- Factor 5 including the margin computation
`cashFlowMargin = (cashFlow / inputs.annualSales) * 100`
(src/lib/calculations.ts:128), which carries NO zero guard in the source.
Under IEEE-754 semantics a zero `annualSales` makes the margin `+Infinity`
when `0 < cashFlow` (so the `>= 50` branch fires and the score is 60) and
`NaN` or `-Infinity` otherwise (every branch test is false, score 0).
Rationals have no infinities, so that behaviour is written out explicitly. -/
def cashFlowScore (annualSales cashFlow : ℚ) : ℚ :=
  if annualSales = 0 then (if 0 < cashFlow then 60 else 0)
  else cashFlowTier (cashFlow / annualSales * 100)

/-- `calculateHealthScore` (src/lib/calculations.ts:53-160): the five factor
scores summed and rounded to one decimal place. -/
def calculateHealthScore (inputs : CalculationInputs) (profitMargin cashFlow : ℚ) : ℚ :=
  roundTo1dp (profitScore profitMargin + foodScore inputs.foodCostPercent +
    laborScore inputs.laborCostPercent + occupancyScore inputs.occupancyCostPercent +
    cashFlowScore inputs.annualSales cashFlow)

/-- `foodCost` (src/lib/calculations.ts:212). -/
def foodCostOf (i : CalculationInputs) : ℚ := i.annualSales * (i.foodCostPercent / 100)

/-- `grossProfit` (src/lib/calculations.ts:213). -/
def grossProfitOf (i : CalculationInputs) : ℚ := i.annualSales * (1 - i.foodCostPercent / 100)

/-- `laborCost` (src/lib/calculations.ts:217). -/
def laborCostOf (i : CalculationInputs) : ℚ :=
  i.annualSales * (i.laborCostPercent / 100) * OPERATING_EXPENSE_ADJUSTMENT

/-- `occupancyCost` (src/lib/calculations.ts:218). -/
def occupancyCostOf (i : CalculationInputs) : ℚ :=
  i.annualSales * (i.occupancyCostPercent / 100) * OPERATING_EXPENSE_ADJUSTMENT

/-- `otherExpenses` (src/lib/calculations.ts:219). -/
def otherExpensesOf (i : CalculationInputs) : ℚ :=
  i.annualSales * (i.otherExpensesPercent / 100) * OPERATING_EXPENSE_ADJUSTMENT

/-- `totalOperatingExpenses` (src/lib/calculations.ts:222). -/
def totalOperatingExpensesOf (i : CalculationInputs) : ℚ :=
  laborCostOf i + occupancyCostOf i + otherExpensesOf i

/-- `operatingProfit` (src/lib/calculations.ts:223). -/
def operatingProfitOf (i : CalculationInputs) : ℚ := grossProfitOf i - totalOperatingExpensesOf i

/-- `cashFlow` (src/lib/calculations.ts:226). -/
def cashFlowOf (i : CalculationInputs) : ℚ := operatingProfitOf i + i.ownerCompensation

/-- `estimatedValue` (src/lib/calculations.ts:230): guarded division. -/
def estimatedValueOf (i : CalculationInputs) : ℚ :=
  if 0 < i.desiredROI then cashFlowOf i / (i.desiredROI / 100) else 0

/-- `profitMargin` (src/lib/calculations.ts:236): guarded division. -/
def profitMarginOf (i : CalculationInputs) : ℚ :=
  if 0 < i.annualSales then operatingProfitOf i / i.annualSales * 100 else 0

/-- `healthScore` (src/lib/calculations.ts:239). -/
def healthScoreOf (i : CalculationInputs) : ℚ :=
  calculateHealthScore i (profitMarginOf i) (cashFlowOf i)

/-- `healthStatus` (src/lib/calculations.ts:243-252). -/
def healthStatusOf (i : CalculationInputs) : HealthStatus :=
  if 85 ≤ healthScoreOf i then .Excellent
  else if 70 ≤ healthScoreOf i then .Good
  else if 55 ≤ healthScoreOf i then .Fair
  else .Poor

/-- `calculateValuation` (src/lib/calculations.ts:210-270), assembled from the
step definitions above (the source's local `const` bindings). -/
def calculateValuation (i : CalculationInputs) : CalculationResults :=
  ⟨grossProfitOf i, operatingProfitOf i, cashFlowOf i, estimatedValueOf i,
   estimatedValueOf i, healthStatusOf i, profitMarginOf i,
   ⟨foodCostOf i, laborCostOf i, occupancyCostOf i, otherExpensesOf i,
    totalOperatingExpensesOf i⟩⟩

/-- `validateInputs` (src/lib/calculations.ts:300-355).  The source pushes one
message per violated rule onto `errors` in program order; that sequence of
`push`es is the list concatenation below.  `valid` is `errors.length === 0`. -/
def validateInputsErrors (i : CalculationInputs) : List String :=
  (if i.annualSales < 100000 then ["Annual sales must be at least $100,000"] else []) ++
  (if 50000000 < i.annualSales then ["Annual sales must not exceed $50,000,000"] else []) ++
  (if i.foodCostPercent < 15 ∨ 60 < i.foodCostPercent then
    ["Food cost must be between 15% and 60%"] else []) ++
  (if i.laborCostPercent < 15 ∨ 50 < i.laborCostPercent then
    ["Labor cost must be between 15% and 50%"] else []) ++
  (if i.occupancyCostPercent < 3 ∨ 20 < i.occupancyCostPercent then
    ["Occupancy cost must be between 3% and 20%"] else []) ++
  (if i.otherExpensesPercent < 5 ∨ 30 < i.otherExpensesPercent then
    ["Other expenses must be between 5% and 30%"] else []) ++
  (if i.ownerCompensation < 0 then ["Owner compensation cannot be negative"] else []) ++
  (if 1000000 < i.ownerCompensation then
    ["Owner compensation must not exceed $1,000,000"] else []) ++
  (if i.desiredROI < 10 ∨ 50 < i.desiredROI then
    ["Desired ROI must be between 10% and 50%"] else []) ++
  (if 100 < i.foodCostPercent + i.laborCostPercent +
        i.occupancyCostPercent + i.otherExpensesPercent then
    ["Total expenses cannot exceed 100% of sales"] else [])

/-- Validation result record (`\x7bvalid, errors\x7d`). -/
structure ValidationResult where
  valid : Bool
  errors : List String
  deriving DecidableEq

/-- `validateInputs` (src/lib/calculations.ts:300-355). -/
def validateInputs (i : CalculationInputs) : ValidationResult :=
  ⟨(validateInputsErrors i).length == 0, validateInputsErrors i⟩

/-! ## Specification-side definitions

The following definitions are transcribed from the SPECIFICATION's words, not
from the source; they exist to be compared with the source-side definitions
above (refinement claims). -/

/-- Profit-margin tier of the spec table (§4.2): `≥15→20; [12,15)→…; else 0`,
with the half-open ranges written out. -/
def specProfitScore (m : ℚ) : ℚ :=
  if 15 ≤ m then 20
  else if 12 ≤ m ∧ m < 15 then 17 + ((m - 12) / 3) * 3
  else if 10 ≤ m ∧ m < 12 then 15 + ((m - 10) / 2) * 2
  else if 7 ≤ m ∧ m < 10 then 11 + ((m - 7) / 3) * 4
  else if 5 ≤ m ∧ m < 7 then 8 + ((m - 5) / 2) * 3
  else if 0 ≤ m ∧ m < 5 then (m / 5) * 8
  else 0

/-- Food-cost tier of the spec table (§4.2), with the set differences
(`[25,35]\[28,32]` etc.) written out as explicit exclusions. -/
def specFoodScore (f : ℚ) : ℚ :=
  if 28 ≤ f ∧ f ≤ 32 then 15
  else if (25 ≤ f ∧ f ≤ 35) ∧ ¬(28 ≤ f ∧ f ≤ 32) then 15 - (min |f - 30| 5 / 5) * 3
  else if (20 ≤ f ∧ f ≤ 40) ∧ ¬(25 ≤ f ∧ f ≤ 35) then 12 - ((min |f - 30| 10 - 5) / 5) * 4
  else if (15 ≤ f ∧ f ≤ 45) ∧ ¬(20 ≤ f ∧ f ≤ 40) then 4
  else 0

/-- Labor-cost tier of the spec table (§4.2). -/
def specLaborScore (l : ℚ) : ℚ :=
  if 25 ≤ l ∧ l ≤ 32 then 15
  else if (22 ≤ l ∧ l ≤ 35) ∧ ¬(25 ≤ l ∧ l ≤ 32) then 15 - (min |l - 28.5| 6.5 / 6.5) * 3
  else if (20 ≤ l ∧ l ≤ 40) ∧ ¬(22 ≤ l ∧ l ≤ 35) then 12 - ((min |l - 28.5| 11.5 - 6.5) / 5) * 4
  else if (15 ≤ l ∧ l ≤ 45) ∧ ¬(20 ≤ l ∧ l ≤ 40) then 4
  else 0

/-- Occupancy-cost tier of the spec table (§4.2). -/
def specOccupancyScore (o : ℚ) : ℚ :=
  if 6 ≤ o ∧ o ≤ 10 then 10
  else if (5 ≤ o ∧ o ≤ 12) ∧ ¬(6 ≤ o ∧ o ≤ 10) then 10 - (min |o - 8| 4 / 4) * 2
  else if (3 ≤ o ∧ o ≤ 15) ∧ ¬(5 ≤ o ∧ o ≤ 12) then 8 - ((min |o - 8| 7 - 4) / 3) * 3
  else if (3 ≤ o ∧ o ≤ 20) ∧ ¬(3 ≤ o ∧ o ≤ 15) then 3
  else 0

/-- Cash-flow-margin tier of the spec table (§4.2), half-open ranges written
out: `≥50→60; [40,50)→…; …; [0,5)→(cf/5)×8; else 0`. -/
def specCashFlowTier (cf : ℚ) : ℚ :=
  if 50 ≤ cf then 60
  else if 40 ≤ cf ∧ cf < 50 then 55 + ((cf - 40) / 10) * 5
  else if 30 ≤ cf ∧ cf < 40 then 45 + ((cf - 30) / 10) * 10
  else if 20 ≤ cf ∧ cf < 30 then 35 + ((cf - 20) / 10) * 10
  else if 15 ≤ cf ∧ cf < 20 then 27 + ((cf - 15) / 5) * 8
  else if 10 ≤ cf ∧ cf < 15 then 18 + ((cf - 10) / 5) * 9
  else if 5 ≤ cf ∧ cf < 10 then 8 + ((cf - 5) / 5) * 10
  else if 0 ≤ cf ∧ cf < 5 then (cf / 5) * 8
  else 0

/-- Health score as tabulated in §4.2 of the specification: the five tier
scores summed and rounded to one decimal place, with cash-flow margin
`cashFlow / annualSales × 100`. -/
def specHealthScore (inputs : CalculationInputs) (profitMargin cashFlow : ℚ) : ℚ :=
  roundTo1dp (specProfitScore profitMargin + specFoodScore inputs.foodCostPercent +
    specLaborScore inputs.laborCostPercent + specOccupancyScore inputs.occupancyCostPercent +
    specCashFlowTier (cashFlow / inputs.annualSales * 100))

/-- Modelled from the spec: the cash-flow component as the specification
describes it in §7 / claim C2 — "every division by a possibly-zero quantity is
guarded to return 0", so a zero `annualSales` makes the cash-flow margin 0
before the tiering is applied.  The source (src/lib/calculations.ts:128) has
no such guard; this definition exists to be contrasted with `cashFlowScore`. -/
def cashFlowScoreGuarded (annualSales cashFlow : ℚ) : ℚ :=
  cashFlowTier ((if annualSales = 0 then 0 else cashFlow / annualSales) * 100)

/-- Input record update used to state the `desiredROI` monotonicity claim:
every field of `i` kept, `desiredROI` replaced by `r`. -/
def withDesiredROI (i : CalculationInputs) (r : ℚ) : CalculationInputs :=
  ⟨i.annualSales, i.foodCostPercent, i.laborCostPercent, i.occupancyCostPercent,
   i.otherExpensesPercent, i.ownerCompensation, r⟩

/-- Input record update used to state the `ownerCompensation` monotonicity
claim: every field of `i` kept, `ownerCompensation` replaced by `c`. -/
def withOwnerCompensation (i : CalculationInputs) (c : ℚ) : CalculationInputs :=
  ⟨i.annualSales, i.foodCostPercent, i.laborCostPercent, i.occupancyCostPercent,
   i.otherExpensesPercent, c, i.desiredROI⟩

/-- The reference-scenario input record of the MVP test sheet. -/
def referenceInputs : CalculationInputs := ⟨1200000, 32, 30, 10, 15, 100000, 25⟩

/-! ## Helper lemmas -/

/-- Evaluate `jsRound` on a concrete rational by squeezing `x + 1/2`. -/
theorem jsRound_eq_of_bounds (x : ℚ) (n : ℤ) (h1 : (n : ℚ) ≤ x + 1 / 2)
    (h2 : x + 1 / 2 < n + 1) : jsRound x = n := by
  unfold jsRound
  rw [round_eq]
  exact Int.floor_eq_iff.mpr ⟨h1, by exact_mod_cast h2⟩

/-- Exact value of the health score on the reference inputs: `108.8`. -/
theorem healthScoreOf_referenceInputs : healthScoreOf referenceInputs = 544 / 5 := by
  have hr : jsRound (65300009 / 60000 : ℚ) = 1088 :=
    jsRound_eq_of_bounds _ _ (by norm_num) (by norm_num)
  norm_num [healthScoreOf, calculateHealthScore, roundTo1dp, profitMarginOf, cashFlowOf,
    operatingProfitOf, grossProfitOf, totalOperatingExpensesOf, laborCostOf, occupancyCostOf,
    otherExpensesOf, OPERATING_EXPENSE_ADJUSTMENT, referenceInputs, profitScore, foodScore,
    laborScore, occupancyScore, cashFlowScore, cashFlowTier, hr]

/-- The spec's profit-margin tier agrees with the source's branch chain. -/
theorem specProfitScore_eq (m : ℚ) : specProfitScore m = profitScore m := by
  unfold specProfitScore profitScore
  by_cases h1 : 15 ≤ m
  · rw [if_pos h1, if_pos h1]
  · rw [if_neg h1, if_neg h1]
    by_cases h2 : 12 ≤ m
    · rw [if_pos ⟨h2, not_le.1 h1⟩, if_pos h2]
    · rw [if_neg (fun h => h2 h.1), if_neg h2]
      by_cases h3 : 10 ≤ m
      · rw [if_pos ⟨h3, not_le.1 h2⟩, if_pos h3]
      · rw [if_neg (fun h => h3 h.1), if_neg h3]
        by_cases h4 : 7 ≤ m
        · rw [if_pos ⟨h4, not_le.1 h3⟩, if_pos h4]
        · rw [if_neg (fun h => h4 h.1), if_neg h4]
          by_cases h5 : 5 ≤ m
          · rw [if_pos ⟨h5, not_le.1 h4⟩, if_pos h5]
          · rw [if_neg (fun h => h5 h.1), if_neg h5]
            by_cases h6 : 0 ≤ m
            · rw [if_pos ⟨h6, not_le.1 h5⟩, if_pos h6]
            · rw [if_neg (fun h => h6 h.1), if_neg h6]

/-- The spec's food-cost tier agrees with the source's branch chain. -/
theorem specFoodScore_eq (f : ℚ) : specFoodScore f = foodScore f := by
  unfold specFoodScore foodScore
  by_cases h1 : 28 ≤ f ∧ f ≤ 32
  · rw [if_pos h1, if_pos h1]
  · rw [if_neg h1, if_neg h1]
    by_cases h2 : 25 ≤ f ∧ f ≤ 35
    · rw [if_pos ⟨h2, h1⟩, if_pos h2]
    · rw [if_neg (fun h => h2 h.1), if_neg h2]
      by_cases h3 : 20 ≤ f ∧ f ≤ 40
      · rw [if_pos ⟨h3, h2⟩, if_pos h3]
      · rw [if_neg (fun h => h3 h.1), if_neg h3]
        by_cases h4 : 15 ≤ f ∧ f ≤ 45
        · rw [if_pos ⟨h4, h3⟩, if_pos h4]
        · rw [if_neg (fun h => h4 h.1), if_neg h4]

/-- The spec's labor-cost tier agrees with the source's branch chain. -/
theorem specLaborScore_eq (l : ℚ) : specLaborScore l = laborScore l := by
  unfold specLaborScore laborScore
  by_cases h1 : 25 ≤ l ∧ l ≤ 32
  · rw [if_pos h1, if_pos h1]
  · rw [if_neg h1, if_neg h1]
    by_cases h2 : 22 ≤ l ∧ l ≤ 35
    · rw [if_pos ⟨h2, h1⟩, if_pos h2]
    · rw [if_neg (fun h => h2 h.1), if_neg h2]
      by_cases h3 : 20 ≤ l ∧ l ≤ 40
      · rw [if_pos ⟨h3, h2⟩, if_pos h3]
      · rw [if_neg (fun h => h3 h.1), if_neg h3]
        by_cases h4 : 15 ≤ l ∧ l ≤ 45
        · rw [if_pos ⟨h4, h3⟩, if_pos h4]
        · rw [if_neg (fun h => h4 h.1), if_neg h4]

/-- The spec's occupancy-cost tier agrees with the source's branch chain. -/
theorem specOccupancyScore_eq (o : ℚ) : specOccupancyScore o = occupancyScore o := by
  unfold specOccupancyScore occupancyScore
  by_cases h1 : 6 ≤ o ∧ o ≤ 10
  · rw [if_pos h1, if_pos h1]
  · rw [if_neg h1, if_neg h1]
    by_cases h2 : 5 ≤ o ∧ o ≤ 12
    · rw [if_pos ⟨h2, h1⟩, if_pos h2]
    · rw [if_neg (fun h => h2 h.1), if_neg h2]
      by_cases h3 : 3 ≤ o ∧ o ≤ 15
      · rw [if_pos ⟨h3, h2⟩, if_pos h3]
      · rw [if_neg (fun h => h3 h.1), if_neg h3]
        by_cases h4 : 3 ≤ o ∧ o ≤ 20
        · rw [if_pos ⟨h4, h3⟩, if_pos h4]
        · rw [if_neg (fun h => h4 h.1), if_neg h4]

/-- The spec's cash-flow tier agrees with the source's branch chain. -/
theorem specCashFlowTier_eq (cf : ℚ) : specCashFlowTier cf = cashFlowTier cf := by
  unfold specCashFlowTier cashFlowTier
  by_cases h1 : 50 ≤ cf
  · rw [if_pos h1, if_pos h1]
  · rw [if_neg h1, if_neg h1]
    by_cases h2 : 40 ≤ cf
    · rw [if_pos ⟨h2, not_le.1 h1⟩, if_pos h2]
    · rw [if_neg (fun h => h2 h.1), if_neg h2]
      by_cases h3 : 30 ≤ cf
      · rw [if_pos ⟨h3, not_le.1 h2⟩, if_pos h3]
      · rw [if_neg (fun h => h3 h.1), if_neg h3]
        by_cases h4 : 20 ≤ cf
        · rw [if_pos ⟨h4, not_le.1 h3⟩, if_pos h4]
        · rw [if_neg (fun h => h4 h.1), if_neg h4]
          by_cases h5 : 15 ≤ cf
          · rw [if_pos ⟨h5, not_le.1 h4⟩, if_pos h5]
          · rw [if_neg (fun h => h5 h.1), if_neg h5]
            by_cases h6 : 10 ≤ cf
            · rw [if_pos ⟨h6, not_le.1 h5⟩, if_pos h6]
            · rw [if_neg (fun h => h6 h.1), if_neg h6]
              by_cases h7 : 5 ≤ cf
              · rw [if_pos ⟨h7, not_le.1 h6⟩, if_pos h7]
              · rw [if_neg (fun h => h7 h.1), if_neg h7]
                by_cases h8 : 0 ≤ cf
                · rw [if_pos ⟨h8, not_le.1 h7⟩, if_pos h8]
                · rw [if_neg (fun h => h8 h.1), if_neg h8]

/-- C3: whenever the cash-flow margin is defined (`annualSales ≠ 0`), the
health score computed by the source equals the sum of the five tiered
piecewise-linear components exactly as tabulated in §4.2 of the spec, with
every breakpoint as written, ties going to the tier listed first, and the sum
rounded to one decimal place as `round (x * 10) / 10`. -/
theorem C3_health_score_matches_spec_table (i : CalculationInputs) (pm cf : ℚ)
    (h : i.annualSales ≠ 0) :
    calculateHealthScore i pm cf = specHealthScore i pm cf := by
  unfold calculateHealthScore specHealthScore cashFlowScore
  rw [if_neg h, specProfitScore_eq, specFoodScore_eq, specLaborScore_eq,
    specOccupancyScore_eq, specCashFlowTier_eq]

/-- Witness for C3 at the reference inputs. -/
theorem C3_health_score_matches_spec_table_witness :
    referenceInputs.annualSales ≠ 0 ∧
    calculateHealthScore referenceInputs 20 400000 = specHealthScore referenceInputs 20 400000 :=
  ⟨by norm_num [referenceInputs],
   C3_health_score_matches_spec_table referenceInputs 20 400000 (by norm_num [referenceInputs])⟩

/-- The profit-margin factor stays within its advertised 20 points. -/
theorem profitScore_bounds (m : ℚ) : 0 ≤ profitScore m ∧ profitScore m ≤ 20 := by
  unfold profitScore
  split_ifs <;> constructor <;> linarith

/-- The food-cost factor stays within its advertised 15 points. -/
theorem foodScore_bounds (f : ℚ) : 0 ≤ foodScore f ∧ foodScore f ≤ 15 := by
  unfold foodScore
  have ha : 0 ≤ |f - 30| := abs_nonneg _
  split_ifs with h1 h2 h3 h4
  · norm_num
  · have hm1 : min |f - 30| 5 ≤ 5 := min_le_right _ _
    have hm0 : 0 ≤ min |f - 30| 5 := le_min ha (by norm_num)
    constructor <;> linarith
  · have hm1 : min |f - 30| 10 ≤ 10 := min_le_right _ _
    have hm5 : 5 ≤ min |f - 30| 10 := by
      rcases not_and_or.mp h2 with h | h
      · refine le_min ?_ (by norm_num)
        rw [abs_of_nonpos (by linarith [not_le.1 h])]
        linarith [not_le.1 h]
      · refine le_min ?_ (by norm_num)
        rw [abs_of_nonneg (by linarith [not_le.1 h])]
        linarith [not_le.1 h]
    constructor <;> linarith
  · norm_num
  · norm_num

/-- The labor-cost factor stays within its advertised 15 points. -/
theorem laborScore_bounds (l : ℚ) : 0 ≤ laborScore l ∧ laborScore l ≤ 15 := by
  unfold laborScore
  have ha : 0 ≤ |l - 28.5| := abs_nonneg _
  split_ifs with h1 h2 h3 h4
  · norm_num
  · have hm1 : min |l - 28.5| 6.5 ≤ 6.5 := min_le_right _ _
    have hm0 : 0 ≤ min |l - 28.5| 6.5 := le_min ha (by norm_num)
    norm_num only at hm1 hm0 ⊢
    constructor <;> linarith
  · have hm1 : min |l - 28.5| 11.5 ≤ 11.5 := min_le_right _ _
    have hm5 : 6.5 ≤ min |l - 28.5| 11.5 := by
      rcases not_and_or.mp h2 with h | h
      · refine le_min ?_ (by norm_num)
        rw [abs_of_nonpos (by linarith [not_le.1 h])]
        linarith [not_le.1 h]
      · refine le_min ?_ (by norm_num)
        rw [abs_of_nonneg (by linarith [not_le.1 h])]
        linarith [not_le.1 h]
    norm_num only at hm1 hm5 ⊢
    constructor <;> linarith
  · norm_num
  · norm_num

/-- The occupancy-cost factor stays within its advertised 10 points. -/
theorem occupancyScore_bounds (o : ℚ) : 0 ≤ occupancyScore o ∧ occupancyScore o ≤ 10 := by
  unfold occupancyScore
  have ha : 0 ≤ |o - 8| := abs_nonneg _
  split_ifs with h1 h2 h3 h4
  · norm_num
  · have hm1 : min |o - 8| 4 ≤ 4 := min_le_right _ _
    have hm0 : 0 ≤ min |o - 8| 4 := le_min ha (by norm_num)
    constructor <;> linarith
  · have hm1 : min |o - 8| 7 ≤ 7 := min_le_right _ _
    have hm2 : 3 ≤ min |o - 8| 7 := by
      rcases not_and_or.mp h2 with h | h
      · refine le_min ?_ (by norm_num)
        rw [abs_of_nonpos (by linarith [not_le.1 h])]
        linarith [not_le.1 h]
      · refine le_min ?_ (by norm_num)
        rw [abs_of_nonneg (by linarith [not_le.1 h])]
        linarith [not_le.1 h]
    constructor <;> linarith
  · norm_num
  · norm_num

/-- The cash-flow tiering stays within its advertised 60 points. -/
theorem cashFlowTier_bounds (cf : ℚ) : 0 ≤ cashFlowTier cf ∧ cashFlowTier cf ≤ 60 := by
  unfold cashFlowTier
  split_ifs <;> constructor <;> linarith

/-- The full cash-flow factor (including the zero-sales branch) stays within
60 points. -/
theorem cashFlowScore_bounds (a cf : ℚ) : 0 ≤ cashFlowScore a cf ∧ cashFlowScore a cf ≤ 60 := by
  unfold cashFlowScore
  split_ifs
  · norm_num
  · norm_num
  · exact cashFlowTier_bounds _

/-- Rounding to one decimal preserves nonnegativity. -/
theorem roundTo1dp_nonneg (x : ℚ) (h : 0 ≤ x) : 0 ≤ roundTo1dp x := by
  unfold roundTo1dp jsRound
  rw [round_eq]
  have hz : (0 : ℤ) ≤ ⌊x * 10 + 1 / 2⌋ := Int.le_floor.2 (by push_cast; linarith)
  have hq : (0 : ℚ) ≤ (⌊x * 10 + 1 / 2⌋ : ℚ) := by exact_mod_cast hz
  linarith

/-- Rounding to one decimal preserves the 120-point ceiling. -/
theorem roundTo1dp_le_120 (x : ℚ) (h : x ≤ 120) : roundTo1dp x ≤ 120 := by
  unfold roundTo1dp jsRound
  rw [round_eq]
  have hfle : (⌊x * 10 + 1 / 2⌋ : ℚ) ≤ x * 10 + 1 / 2 := Int.floor_le _
  have hlt : (⌊x * 10 + 1 / 2⌋ : ℤ) < 1201 := by
    have : (⌊x * 10 + 1 / 2⌋ : ℚ) < 1201 := by linarith
    exact_mod_cast this
  have hle : ((⌊x * 10 + 1 / 2⌋ : ℤ) : ℚ) ≤ 1200 := by exact_mod_cast Int.lt_add_one_iff.1 hlt
  linarith

/-- Rounding to one decimal is monotone. -/
theorem roundTo1dp_mono (x y : ℚ) (h : x ≤ y) : roundTo1dp x ≤ roundTo1dp y := by
  unfold roundTo1dp jsRound
  rw [round_eq, round_eq]
  have hf : ⌊x * 10 + 1 / 2⌋ ≤ ⌊y * 10 + 1 / 2⌋ := Int.floor_mono (by linarith)
  have hq : ((⌊x * 10 + 1 / 2⌋ : ℤ) : ℚ) ≤ ((⌊y * 10 + 1 / 2⌋ : ℤ) : ℚ) := by exact_mod_cast hf
  linarith

/-- C4: the health score always lies in [0, 120]; and any valuation input
hitting every ideal benchmark midpoint (food 30, labor 30, occupancy 8,
other 15) with positive sales and a cash-flow margin of at least 50% scores
exactly 120.0 = 20 + 15 + 15 + 10 + 60. -/
theorem C4_score_range_and_ceiling :
    (∀ (i : CalculationInputs) (pm cf : ℚ),
      0 ≤ calculateHealthScore i pm cf ∧ calculateHealthScore i pm cf ≤ 120) ∧
    (∀ i : CalculationInputs, i.foodCostPercent = 30 → i.laborCostPercent = 30 →
      i.occupancyCostPercent = 8 → i.otherExpensesPercent = 15 → 0 < i.annualSales →
      50 ≤ (calculateValuation i).cashFlow / i.annualSales * 100 →
      calculateHealthScore i (calculateValuation i).profitMargin (calculateValuation i).cashFlow
        = 120) := by
  constructor
  · intro i pm cf
    unfold calculateHealthScore
    obtain ⟨p0, p1⟩ := profitScore_bounds pm
    obtain ⟨f0, f1⟩ := foodScore_bounds i.foodCostPercent
    obtain ⟨l0, l1⟩ := laborScore_bounds i.laborCostPercent
    obtain ⟨o0, o1⟩ := occupancyScore_bounds i.occupancyCostPercent
    obtain ⟨c0, c1⟩ := cashFlowScore_bounds i.annualSales cf
    exact ⟨roundTo1dp_nonneg _ (by linarith), roundTo1dp_le_120 _ (by linarith)⟩
  · intro i hf hl ho he hA hcf
    have hAne : i.annualSales ≠ 0 := ne_of_gt hA
    have hpm : (calculateValuation i).profitMargin = 29045469 / 1000000 := by
      show profitMarginOf i = _
      unfold profitMarginOf operatingProfitOf grossProfitOf totalOperatingExpensesOf
        laborCostOf occupancyCostOf otherExpensesOf OPERATING_EXPENSE_ADJUSTMENT
      rw [if_pos hA, hf, hl, ho, he]
      field_simp
      ring
    have h60 : cashFlowScore i.annualSales ((calculateValuation i).cashFlow) = 60 := by
      have hcf' : 50 ≤ cashFlowOf i / i.annualSales * 100 := hcf
      show cashFlowScore i.annualSales (cashFlowOf i) = 60
      unfold cashFlowScore cashFlowTier
      rw [if_neg hAne, if_pos hcf']
    have hr : jsRound (1200 : ℚ) = 1200 := jsRound_eq_of_bounds _ _ (by norm_num) (by norm_num)
    unfold calculateHealthScore
    rw [hpm, hf, hl, ho, h60]
    norm_num [profitScore, foodScore, laborScore, occupancyScore, roundTo1dp, hr]

/-- Witness for C4: both halves applied at concrete inputs. -/
theorem C4_score_range_and_ceiling_witness :
    (0 ≤ calculateHealthScore referenceInputs 0 0 ∧
      calculateHealthScore referenceInputs 0 0 ≤ 120) ∧
    calculateHealthScore ⟨1000000, 30, 30, 8, 15, 300000, 25⟩
      (calculateValuation ⟨1000000, 30, 30, 8, 15, 300000, 25⟩).profitMargin
      (calculateValuation ⟨1000000, 30, 30, 8, 15, 300000, 25⟩).cashFlow = 120 :=
  ⟨C4_score_range_and_ceiling.1 referenceInputs 0 0,
   C4_score_range_and_ceiling.2 ⟨1000000, 30, 30, 8, 15, 300000, 25⟩ rfl rfl rfl rfl
     (by norm_num)
     (by norm_num [calculateValuation, cashFlowOf, operatingProfitOf, grossProfitOf,
        totalOperatingExpensesOf, laborCostOf, occupancyCostOf, otherExpensesOf,
        OPERATING_EXPENSE_ADJUSTMENT])⟩

/-- C5: the health status returned by `calculateValuation` is determined
solely by the health score through the cutoffs 85/70/55: "Excellent" iff
score ≥ 85, "Good" iff 70 ≤ score < 85, "Fair" iff 55 ≤ score < 70, "Poor"
iff score < 55 — even though the maximum attainable score is 120. -/
theorem C5_health_status_cutoffs (i : CalculationInputs) :
    ((calculateValuation i).healthStatus = HealthStatus.Excellent ↔ 85 ≤ healthScoreOf i) ∧
    ((calculateValuation i).healthStatus = HealthStatus.Good ↔
      70 ≤ healthScoreOf i ∧ healthScoreOf i < 85) ∧
    ((calculateValuation i).healthStatus = HealthStatus.Fair ↔
      55 ≤ healthScoreOf i ∧ healthScoreOf i < 70) ∧
    ((calculateValuation i).healthStatus = HealthStatus.Poor ↔ healthScoreOf i < 55) := by
  have hcv : (calculateValuation i).healthStatus = healthStatusOf i := rfl
  rw [hcv]
  unfold healthStatusOf
  split_ifs with h1 h2 h3
  · exact ⟨iff_of_true rfl h1,
      iff_of_false (by decide) (fun h => absurd h1 (not_le.2 h.2)),
      iff_of_false (by decide) (fun h => absurd h1 (not_le.2 (h.2.trans (by norm_num)))),
      iff_of_false (by decide) (not_lt.2 (le_trans (by norm_num) h1))⟩
  · exact ⟨iff_of_false (by decide) h1,
      iff_of_true rfl ⟨h2, not_le.1 h1⟩,
      iff_of_false (by decide) (fun h => absurd h2 (not_le.2 h.2)),
      iff_of_false (by decide) (not_lt.2 (le_trans (by norm_num) h2))⟩
  · exact ⟨iff_of_false (by decide) h1,
      iff_of_false (by decide) (fun h => h2 h.1),
      iff_of_true rfl ⟨h3, not_le.1 h2⟩,
      iff_of_false (by decide) (not_lt.2 h3)⟩
  · exact ⟨iff_of_false (by decide) h1,
      iff_of_false (by decide) (fun h => h2 h.1),
      iff_of_false (by decide) (fun h => h3 h.1),
      iff_of_true rfl (not_le.1 h3)⟩

/-- C9: `breakdown.foodCost` carries no 0.772727 adjustment factor (unlike
labor, occupancy and other expenses, which each do), so
`foodCost + grossProfit = annualSales` exactly, and
`totalOperatingExpenses = laborCost + occupancyCost + otherExpenses`
excludes the food cost. -/
theorem C9_breakdown_relations (i : CalculationInputs) :
    (calculateValuation i).breakdown.foodCost = i.annualSales * (i.foodCostPercent / 100) ∧
    (calculateValuation i).breakdown.laborCost =
      i.annualSales * (i.laborCostPercent / 100) * OPERATING_EXPENSE_ADJUSTMENT ∧
    (calculateValuation i).breakdown.occupancyCost =
      i.annualSales * (i.occupancyCostPercent / 100) * OPERATING_EXPENSE_ADJUSTMENT ∧
    (calculateValuation i).breakdown.otherExpenses =
      i.annualSales * (i.otherExpensesPercent / 100) * OPERATING_EXPENSE_ADJUSTMENT ∧
    (calculateValuation i).breakdown.foodCost + (calculateValuation i).grossProfit =
      i.annualSales ∧
    (calculateValuation i).breakdown.totalOperatingExpenses =
      (calculateValuation i).breakdown.laborCost + (calculateValuation i).breakdown.occupancyCost
        + (calculateValuation i).breakdown.otherExpenses := by
  refine ⟨rfl, rfl, rfl, rfl, ?_, rfl⟩
  show foodCostOf i + grossProfitOf i = i.annualSales
  unfold foodCostOf grossProfitOf
  ring

set_option maxHeartbeats 2000000 in
/-- The cash-flow tiering is monotone nondecreasing: each tier's formula
joins the next tier's starting value at the shared breakpoint. -/
theorem cashFlowTier_mono (x y : ℚ) (h : x ≤ y) : cashFlowTier x ≤ cashFlowTier y := by
  unfold cashFlowTier
  split_ifs <;> linarith

/-- C10: with `annualSales > 0` and `profitMargin` fixed, the health score is
monotone nondecreasing in `cashFlow`: increasing cash flow never decreases
the returned score. -/
theorem C10_health_score_monotone_in_cashFlow (i : CalculationInputs) (pm cf1 cf2 : ℚ)
    (hA : 0 < i.annualSales) (h : cf1 ≤ cf2) :
    calculateHealthScore i pm cf1 ≤ calculateHealthScore i pm cf2 := by
  unfold calculateHealthScore
  apply roundTo1dp_mono
  have hm : cf1 / i.annualSales * 100 ≤ cf2 / i.annualSales * 100 :=
    mul_le_mul_of_nonneg_right ((div_le_div_iff_of_pos_right hA).2 h) (by norm_num)
  have hcs : cashFlowScore i.annualSales cf1 ≤ cashFlowScore i.annualSales cf2 := by
    unfold cashFlowScore
    rw [if_neg (ne_of_gt hA), if_neg (ne_of_gt hA)]
    exact cashFlowTier_mono _ _ hm
  linarith

/-- Witness for C10 at the reference inputs with cash flows 0 ≤ 1. -/
theorem C10_health_score_monotone_in_cashFlow_witness :
    0 < referenceInputs.annualSales ∧ (0 : ℚ) ≤ 1 ∧
    calculateHealthScore referenceInputs 0 0 ≤ calculateHealthScore referenceInputs 0 1 :=
  ⟨by norm_num [referenceInputs], by norm_num,
   C10_health_score_monotone_in_cashFlow referenceInputs 0 0 1
     (by norm_num [referenceInputs]) (by norm_num)⟩

/-- C7: holding everything else fixed, raising `desiredROI` strictly lowers
`estimatedValue` when the cash flow is positive, and raising
`ownerCompensation` strictly raises both `cashFlow` and `estimatedValue`
(the latter for a positive `desiredROI`, the domain the spec's data model
gives that field). -/
theorem C7_monotonicity (i : CalculationInputs) (r1 r2 c1 c2 : ℚ) :
    (0 < r1 → r1 < r2 → 0 < (calculateValuation i).cashFlow →
      (calculateValuation (withDesiredROI i r2)).estimatedValue <
        (calculateValuation (withDesiredROI i r1)).estimatedValue) ∧
    (c1 < c2 →
      (calculateValuation (withOwnerCompensation i c1)).cashFlow <
        (calculateValuation (withOwnerCompensation i c2)).cashFlow) ∧
    (c1 < c2 → 0 < i.desiredROI →
      (calculateValuation (withOwnerCompensation i c1)).estimatedValue <
        (calculateValuation (withOwnerCompensation i c2)).estimatedValue) := by
  refine ⟨?_, ?_, ?_⟩
  · intro h1 h2 hcf
    show estimatedValueOf (withDesiredROI i r2) < estimatedValueOf (withDesiredROI i r1)
    unfold estimatedValueOf
    rw [if_pos (show 0 < (withDesiredROI i r1).desiredROI from h1),
      if_pos (show 0 < (withDesiredROI i r2).desiredROI from lt_trans h1 h2)]
    show cashFlowOf i / (r2 / 100) < cashFlowOf i / (r1 / 100)
    exact div_lt_div_of_pos_left hcf (by linarith) (by linarith)
  · intro h
    show operatingProfitOf i + c1 < operatingProfitOf i + c2
    linarith
  · intro h hroi
    show estimatedValueOf (withOwnerCompensation i c1) <
      estimatedValueOf (withOwnerCompensation i c2)
    unfold estimatedValueOf
    rw [if_pos (show 0 < (withOwnerCompensation i c1).desiredROI from hroi),
      if_pos (show 0 < (withOwnerCompensation i c2).desiredROI from hroi)]
    show (operatingProfitOf i + c1) / (i.desiredROI / 100) <
      (operatingProfitOf i + c2) / (i.desiredROI / 100)
    exact (div_lt_div_iff_of_pos_right (by linarith)).2 (by linarith)

/-- Witness for C7 at the reference inputs, ROI 25 < 30, compensation
100000 < 200000. -/
theorem C7_monotonicity_witness :
    ((0 : ℚ) < 25 ∧ (25 : ℚ) < 30 ∧ 0 < (calculateValuation referenceInputs).cashFlow ∧
      (calculateValuation (withDesiredROI referenceInputs 30)).estimatedValue <
        (calculateValuation (withDesiredROI referenceInputs 25)).estimatedValue) ∧
    ((100000 : ℚ) < 200000 ∧ 0 < referenceInputs.desiredROI ∧
      (calculateValuation (withOwnerCompensation referenceInputs 100000)).cashFlow <
        (calculateValuation (withOwnerCompensation referenceInputs 200000)).cashFlow ∧
      (calculateValuation (withOwnerCompensation referenceInputs 100000)).estimatedValue <
        (calculateValuation (withOwnerCompensation referenceInputs 200000)).estimatedValue) := by
  have hcf : 0 < (calculateValuation referenceInputs).cashFlow := by
    norm_num [calculateValuation, cashFlowOf, operatingProfitOf, grossProfitOf,
      totalOperatingExpensesOf, laborCostOf, occupancyCostOf, otherExpensesOf,
      OPERATING_EXPENSE_ADJUSTMENT, referenceInputs]
  exact ⟨⟨by norm_num, by norm_num, hcf,
      (C7_monotonicity referenceInputs 25 30 0 0).1 (by norm_num) (by norm_num) hcf⟩,
    ⟨by norm_num, by norm_num [referenceInputs],
      (C7_monotonicity referenceInputs 0 0 100000 200000).2.1 (by norm_num),
      (C7_monotonicity referenceInputs 0 0 100000 200000).2.2 (by norm_num)
        (by norm_num [referenceInputs])⟩⟩

/-- C6: `validateInputs` never throws (it is a total function); `valid` is
true iff the error list is empty; each violated rule contributes exactly one
message, in the fixed field order with the sum-of-percentages check last; and
all per-field bounds are inclusive.  The last conjunct is the spec's concrete
sum-check scenario (percent fields 60/50/20/30, sum 160). -/
theorem C6_validateInputs_contract (i : CalculationInputs) :
    ((validateInputs i).valid = true ↔ (validateInputs i).errors = []) ∧
    (validateInputs i).errors =
      (if ¬ 100000 ≤ i.annualSales then ["Annual sales must be at least $100,000"] else []) ++
      (if ¬ i.annualSales ≤ 50000000 then
        ["Annual sales must not exceed $50,000,000"] else []) ++
      (if ¬ (15 ≤ i.foodCostPercent ∧ i.foodCostPercent ≤ 60) then
        ["Food cost must be between 15% and 60%"] else []) ++
      (if ¬ (15 ≤ i.laborCostPercent ∧ i.laborCostPercent ≤ 50) then
        ["Labor cost must be between 15% and 50%"] else []) ++
      (if ¬ (3 ≤ i.occupancyCostPercent ∧ i.occupancyCostPercent ≤ 20) then
        ["Occupancy cost must be between 3% and 20%"] else []) ++
      (if ¬ (5 ≤ i.otherExpensesPercent ∧ i.otherExpensesPercent ≤ 30) then
        ["Other expenses must be between 5% and 30%"] else []) ++
      (if ¬ 0 ≤ i.ownerCompensation then ["Owner compensation cannot be negative"] else []) ++
      (if ¬ i.ownerCompensation ≤ 1000000 then
        ["Owner compensation must not exceed $1,000,000"] else []) ++
      (if ¬ (10 ≤ i.desiredROI ∧ i.desiredROI ≤ 50) then
        ["Desired ROI must be between 10% and 50%"] else []) ++
      (if 100 < i.foodCostPercent + i.laborCostPercent + i.occupancyCostPercent +
          i.otherExpensesPercent then ["Total expenses cannot exceed 100% of sales"] else []) ∧
    (i.foodCostPercent = 60 → i.laborCostPercent = 50 → i.occupancyCostPercent = 20 →
      i.otherExpensesPercent = 30 →
      "Total expenses cannot exceed 100% of sales" ∈ (validateInputs i).errors) := by
  refine ⟨?_, ?_, ?_⟩
  · simp [validateInputs, List.length_eq_zero]
  · show validateInputsErrors i = _
    unfold validateInputsErrors
    simp only [not_le, not_and_or, not_lt]
  · intro h1 h2 h3 h4
    show _ ∈ validateInputsErrors i
    norm_num [validateInputsErrors, h1, h2, h3, h4]

/-- Witness for C6 at a record whose only violation is the percent sum. -/
theorem C6_validateInputs_contract_witness :
    ((validateInputs ⟨1000000, 60, 50, 20, 30, 50000, 25⟩).valid = true ↔
      (validateInputs ⟨1000000, 60, 50, 20, 30, 50000, 25⟩).errors = []) ∧
    "Total expenses cannot exceed 100% of sales" ∈
      (validateInputs ⟨1000000, 60, 50, 20, 30, 50000, 25⟩).errors :=
  ⟨(C6_validateInputs_contract ⟨1000000, 60, 50, 20, 30, 50000, 25⟩).1,
   (C6_validateInputs_contract ⟨1000000, 60, 50, 20, 30, 50000, 25⟩).2.2 rfl rfl rfl rfl⟩

/-- C8 as literally stated is false: with annualSales = 100000 and every
other field inside its own per-field valid range (60%, 50%, 20%, 30%, $0,
25%), `validateInputs` still returns valid = false, because the four percent
fields sum to 160 > 100 and the sum rule fires. -/
theorem C8_counterexample :
    ((15 : ℚ) ≤ 60 ∧ (60 : ℚ) ≤ 60) ∧ ((15 : ℚ) ≤ 50 ∧ (50 : ℚ) ≤ 50) ∧
    ((3 : ℚ) ≤ 20 ∧ (20 : ℚ) ≤ 20) ∧ ((5 : ℚ) ≤ 30 ∧ (30 : ℚ) ≤ 30) ∧
    ((0 : ℚ) ≤ 0 ∧ (0 : ℚ) ≤ 1000000) ∧ ((10 : ℚ) ≤ 25 ∧ (25 : ℚ) ≤ 50) ∧
    (validateInputs ⟨100000, 60, 50, 20, 30, 0, 25⟩).valid = false ∧
    (validateInputs ⟨100000, 60, 50, 20, 30, 0, 25⟩).errors =
      ["Total expenses cannot exceed 100% of sales"] := by
  norm_num [validateInputs, validateInputsErrors]

/-- C8 amended: with every other field inside its per-field range AND the four
percent fields summing to at most 100, annualSales = 100000 and 50000000 are
valid, 99999 is invalid with the message referencing the $100,000 minimum,
and 50000001 is invalid. -/
theorem C8_annual_sales_boundaries (f l o e oc r : ℚ)
    (hf : 15 ≤ f ∧ f ≤ 60) (hl : 15 ≤ l ∧ l ≤ 50) (ho : 3 ≤ o ∧ o ≤ 20)
    (he : 5 ≤ e ∧ e ≤ 30) (hoc : 0 ≤ oc ∧ oc ≤ 1000000) (hr : 10 ≤ r ∧ r ≤ 50)
    (hsum : f + l + o + e ≤ 100) :
    (validateInputs ⟨100000, f, l, o, e, oc, r⟩).valid = true ∧
    (validateInputs ⟨50000000, f, l, o, e, oc, r⟩).valid = true ∧
    (validateInputs ⟨99999, f, l, o, e, oc, r⟩).valid = false ∧
    "Annual sales must be at least $100,000" ∈
      (validateInputs ⟨99999, f, l, o, e, oc, r⟩).errors ∧
    (validateInputs ⟨50000001, f, l, o, e, oc, r⟩).valid = false := by
  have hfc : ¬(f < 15 ∨ 60 < f) := by push_neg; exact hf
  have hlc : ¬(l < 15 ∨ 50 < l) := by push_neg; exact hl
  have hoc2 : ¬(o < 3 ∨ 20 < o) := by push_neg; exact ho
  have hec : ¬(e < 5 ∨ 30 < e) := by push_neg; exact he
  have hocc1 : ¬ oc < 0 := not_lt.2 hoc.1
  have hocc2 : ¬ 1000000 < oc := not_lt.2 hoc.2
  have hrc : ¬(r < 10 ∨ 50 < r) := by push_neg; exact hr
  have hsumc : ¬ 100 < f + l + o + e := not_lt.2 hsum
  have e1 : validateInputsErrors ⟨100000, f, l, o, e, oc, r⟩ = [] := by
    norm_num [validateInputsErrors, hfc, hlc, hoc2, hec, hocc1, hocc2, hrc, hsumc]
  have e2 : validateInputsErrors ⟨50000000, f, l, o, e, oc, r⟩ = [] := by
    norm_num [validateInputsErrors, hfc, hlc, hoc2, hec, hocc1, hocc2, hrc, hsumc]
  have e3 : validateInputsErrors ⟨99999, f, l, o, e, oc, r⟩ =
      ["Annual sales must be at least $100,000"] := by
    norm_num [validateInputsErrors, hfc, hlc, hoc2, hec, hocc1, hocc2, hrc, hsumc]
  have e4 : validateInputsErrors ⟨50000001, f, l, o, e, oc, r⟩ =
      ["Annual sales must not exceed $50,000,000"] := by
    norm_num [validateInputsErrors, hfc, hlc, hoc2, hec, hocc1, hocc2, hrc, hsumc]
  refine ⟨?_, ?_, ?_, ?_, ?_⟩
  · show ((validateInputsErrors ⟨100000, f, l, o, e, oc, r⟩).length == 0) = true
    rw [e1]
    rfl
  · show ((validateInputsErrors ⟨50000000, f, l, o, e, oc, r⟩).length == 0) = true
    rw [e2]
    rfl
  · show ((validateInputsErrors ⟨99999, f, l, o, e, oc, r⟩).length == 0) = false
    rw [e3]
    rfl
  · show _ ∈ validateInputsErrors ⟨99999, f, l, o, e, oc, r⟩
    rw [e3]
    exact List.mem_singleton.2 rfl
  · show ((validateInputsErrors ⟨50000001, f, l, o, e, oc, r⟩).length == 0) = false
    rw [e4]
    rfl

/-- Witness for the amended C8 at in-range field values 30/30/8/15/$0/25%. -/
theorem C8_annual_sales_boundaries_witness :
    (validateInputs ⟨100000, 30, 30, 8, 15, 0, 25⟩).valid = true ∧
    (validateInputs ⟨50000000, 30, 30, 8, 15, 0, 25⟩).valid = true ∧
    (validateInputs ⟨99999, 30, 30, 8, 15, 0, 25⟩).valid = false ∧
    "Annual sales must be at least $100,000" ∈
      (validateInputs ⟨99999, 30, 30, 8, 15, 0, 25⟩).errors ∧
    (validateInputs ⟨50000001, 30, 30, 8, 15, 0, 25⟩).valid = false :=
  C8_annual_sales_boundaries 30 30 8 15 0 25 (by norm_num) (by norm_num) (by norm_num)
    (by norm_num) (by norm_num) (by norm_num) (by norm_num)

/-- C2 as stated is false on the code: the cash-flow-margin division
`cashFlow / annualSales` inside the health-score computation is NOT guarded
to return 0.  At annualSales = 0 and cashFlow = 100 the source's IEEE-754
semantics give the cash-flow factor 60 points (margin `+Infinity` takes the
`>= 50` branch), where the guarded computation the claim describes would give
0; observably, the input ⟨0, 50, 50, 25, 0, 100, 25⟩ is rated "Fair" (score
60.0) instead of the "Poor" (score 0.0) a guarded division would produce. -/
theorem C2_counterexample :
    cashFlowScore 0 100 = 60 ∧ cashFlowScoreGuarded 0 100 = 0 ∧
    (calculateValuation ⟨0, 50, 50, 25, 0, 100, 25⟩).healthStatus = HealthStatus.Fair := by
  have hr : jsRound (600 : ℚ) = 600 := jsRound_eq_of_bounds _ _ (by norm_num) (by norm_num)
  refine ⟨?_, ?_, ?_⟩
  · norm_num [cashFlowScore]
  · norm_num [cashFlowScoreGuarded, cashFlowTier]
  · show healthStatusOf _ = _
    norm_num [healthStatusOf, healthScoreOf, calculateHealthScore, profitMarginOf,
      cashFlowOf, operatingProfitOf, grossProfitOf, totalOperatingExpensesOf, laborCostOf,
      occupancyCostOf, otherExpensesOf, OPERATING_EXPENSE_ADJUSTMENT, profitScore, foodScore,
      laborScore, occupancyScore, cashFlowScore, roundTo1dp, hr]

/-- C2 amended: the engine is total (every result field is a well-defined
rational for every input); the `estimatedValue` and `profitMargin` divisions
are guarded — desiredROI = 0 gives estimatedValue = desiredROIValue = 0 and
annualSales = 0 gives profitMargin = 0 — but the cash-flow-margin division in
the health score is unguarded: at annualSales = 0 its IEEE-754 outcome makes
the cash-flow factor 60 when cashFlow > 0 and 0 otherwise, still finite. -/
theorem C2_division_guards (i : CalculationInputs) (cf : ℚ) :
    (i.desiredROI = 0 → (calculateValuation i).estimatedValue = 0 ∧
      (calculateValuation i).desiredROIValue = 0) ∧
    (i.annualSales = 0 → (calculateValuation i).profitMargin = 0) ∧
    (i.annualSales = 0 →
      cashFlowScore i.annualSales cf = if 0 < cf then 60 else 0) := by
  refine ⟨?_, ?_, ?_⟩
  · intro h
    constructor <;>
    · show estimatedValueOf i = 0
      unfold estimatedValueOf
      rw [h]
      norm_num
  · intro h
    show profitMarginOf i = 0
    unfold profitMarginOf
    rw [h]
    norm_num
  · intro h
    unfold cashFlowScore
    rw [if_pos h]

/-- Witness for the amended C2 at annualSales = 0, desiredROI = 0, cf = 1. -/
theorem C2_division_guards_witness :
    ((calculateValuation ⟨0, 30, 30, 8, 15, 100, 0⟩).estimatedValue = 0 ∧
      (calculateValuation ⟨0, 30, 30, 8, 15, 100, 0⟩).desiredROIValue = 0) ∧
    (calculateValuation ⟨0, 30, 30, 8, 15, 100, 0⟩).profitMargin = 0 ∧
    cashFlowScore (0 : ℚ) 1 = 60 := by
  obtain ⟨h1, h2, h3⟩ := C2_division_guards ⟨0, 30, 30, 8, 15, 100, 0⟩ 1
  exact ⟨h1 rfl, h2 rfl, (h3 rfl).trans (by norm_num)⟩

/-- C1: on the reference inputs {annualSales 1200000, food 32%, labor 30%,
occupancy 10%, other 15%, ownerCompensation 100000, desiredROI 25%},
`calculateValuation` returns grossProfit exactly 816000, operatingProfit
within 1000 of 306000, cashFlow within 1000 of 406000, estimatedValue within
1000 of 1624000, and healthStatus "Excellent". -/
theorem C1_reference_scenario :
    (calculateValuation referenceInputs).grossProfit = 816000 ∧
    |(calculateValuation referenceInputs).operatingProfit - 306000| < 1000 ∧
    |(calculateValuation referenceInputs).cashFlow - 406000| < 1000 ∧
    |(calculateValuation referenceInputs).estimatedValue - 1624000| < 1000 ∧
    (calculateValuation referenceInputs).healthStatus = HealthStatus.Excellent := by
  refine ⟨?_, ?_, ?_, ?_, ?_⟩
  · norm_num [calculateValuation, grossProfitOf, referenceInputs]
  · norm_num [calculateValuation, abs_lt, operatingProfitOf, grossProfitOf,
      totalOperatingExpensesOf, laborCostOf, occupancyCostOf, otherExpensesOf,
      OPERATING_EXPENSE_ADJUSTMENT, referenceInputs]
  · norm_num [calculateValuation, abs_lt, cashFlowOf, operatingProfitOf, grossProfitOf,
      totalOperatingExpensesOf, laborCostOf, occupancyCostOf, otherExpensesOf,
      OPERATING_EXPENSE_ADJUSTMENT, referenceInputs]
  · norm_num [calculateValuation, abs_lt, estimatedValueOf, cashFlowOf,
      operatingProfitOf, grossProfitOf, totalOperatingExpensesOf, laborCostOf, occupancyCostOf,
      otherExpensesOf, OPERATING_EXPENSE_ADJUSTMENT, referenceInputs]
  · show healthStatusOf referenceInputs = HealthStatus.Excellent
    norm_num [healthStatusOf, healthScoreOf_referenceInputs]
